import Mathlib

/-!
Shallow embedding of `packages/robo/src/cli/compiler/typescript.ts`.

The module orchestrates two optional third-party capability providers
(the `typescript` compiler and the `@swc/core` transformer).  The
providers themselves are external: their outputs (import outcomes,
parse results, conversion results, diagnostics, the emit outcome) are
inputs of the embedded functions, while everything the module itself
computes (handle assignment, option merging, diagnostic routing and
formatting, classification, the fatal-exit control flow) is embedded
faithfully from the source.

Observable side effects (calls on `compilerLogger` and `process.exit`)
are modelled as an event trace; a function that terminates the process
produces an `exitProcess` event and returns no value.
-/

set_option maxHeartbeats 1000000

/-- Logging channels of the `compilerLogger` sink. -/
inductive Channel
  | debug
  | info
  | warn
  | error
  deriving DecidableEq, Repr

/-- Observable boundary effects: a leveled log call, or process termination
with an exit code. -/
inductive Event
  | log (channel : Channel) (message : String)
  | exitProcess (code : Nat)
  deriving DecidableEq, Repr

/-- True exactly on `Event.exitProcess` events. -/
def isExitEvent : Event → Bool
  | Event.exitProcess _ => true
  | Event.log _ _ => false

/-- True exactly on `Event.log` events. -/
def isLogEvent : Event → Bool
  | Event.log _ _ => true
  | Event.exitProcess _ => false

/-- Opaque token for a successfully imported `typescript` module
(`import('typescript')` resolving). -/
inductive TsModule
  | mk
  deriving DecidableEq, Repr

/-- Opaque token for a successfully imported `@swc/core` module
(`import('@swc/core')` resolving). -/
inductive SwcModule
  | mk
  deriving DecidableEq, Repr

/-- The two process-wide provider handles, `export let ts` and
`export let transform`.  `none` models the TypeScript value
`undefined`, i.e. a handle that was never assigned. -/
structure Handles where
  ts : Option TsModule
  transform : Option SwcModule
  deriving DecidableEq, Repr

/-- Handle state at process start: both handles are unset. -/
def initialHandles : Handles := { ts := none, transform := none }

/-- Embedding of `preloadTransformers`.

`isBunRuntime` is the imported `IS_BUN_RUNTIME` flag; `tsImport` and
`swcImport` are the outcomes of the two dynamic imports issued through
`Promise.all` (both are started concurrently; `Promise.all` rejects as
soon as either rejects, and only when both resolve does control reach
the two handle assignments).  The whole body sits inside
`try { ... } catch { /* Ignore */ }`, so a rejection leaves the handle
state `st` untouched and no exception escapes: the result is always
`Except.ok`.  The `compilerLogger.debug` call in the body carries no
decision and is not part of the observed state here. -/
def preloadTransformers (isBunRuntime : Bool) (tsImport : Except String TsModule)
    (swcImport : Except String SwcModule) (st : Handles) : Except String Handles :=
  match (do
    if isBunRuntime then
      pure st
    else do
      let typescript ← tsImport
      let swc ← swcImport
      pure { ts := some typescript, transform := some swc } : Except String Handles) with
  | Except.ok h => Except.ok h
  | Except.error _ => Except.ok st

/-- Embedding of `isTypescriptProject`.

`tsconfigExists` is the result of `existsSync(path.join(process.cwd(),
'tsconfig.json'))`; the two `typeof ... === 'undefined'` tests read the
provider handles.  The `missing` array is built by three pushes in
source order, then the pair `(isTypeScript, missing)` is returned with
`isTypeScript = (missing.length === 0)`. -/
def isTypescriptProject (tsconfigExists : Bool) (h : Handles) : Bool × List String :=
  let missing : List String := []
  let missing := if !tsconfigExists then missing ++ ["tsconfig.json"] else missing
  let missing := if h.ts.isNone then missing ++ ["typescript"] else missing
  let missing := if h.transform.isNone then missing ++ ["@swc/core"] else missing
  (missing.isEmpty, missing)

/-- A JavaScript option value as it appears in a compiler-options
object: a boolean, a number, a string, or an array (the only shapes the
embedded code reads). -/
inductive OptValue
  | bool (b : Bool)
  | num (n : Int)
  | str (s : String)
  | arr (elems : List String)
  deriving DecidableEq, Repr

/-- A JavaScript object used as an option record: a map from property
name to value, `none` modelling an absent property (`undefined`). -/
def OptMap : Type := String → Option OptValue

/-- The empty object `{}`. -/
def emptyOptMap : OptMap := fun _ => none

/-- JavaScript truthiness of a property read: `undefined` is falsy;
`false`, `0` and `""` are falsy; arrays are objects and always truthy. -/
def truthy : Option OptValue → Bool
  | none => false
  | some (OptValue.bool b) => b
  | some (OptValue.num n) => n != 0
  | some (OptValue.str s) => s != ""
  | some (OptValue.arr _) => true

/-- Object spread `{...base, ...over}`: a property of `over` wins
whenever `over` has it. -/
def spreadInto (base over : OptMap) : OptMap :=
  fun k => match over k with
    | some v => some v
    | none => base k

/-- Property assignment in an object literal after a spread:
`{..., k: v}`. -/
def setOption (m : OptMap) (k : String) (v : OptValue) : OptMap :=
  fun q => if q = k then some v else m q

/-- The literal default fields of the `options` object in
`buildDeclarationFiles`, before the spreads.  The two provider enum
members (`ts.ScriptTarget.Latest`, `ts.ModuleResolutionKind.NodeNext`)
are rendered as their names. -/
def defaultDeclarationOptions : OptMap :=
  fun k =>
    if k = "target" then some (OptValue.str "ScriptTarget.Latest")
    else if k = "rootDir" then some (OptValue.str "src")
    else if k = "outDir" then some (OptValue.str ".robo/build")
    else if k = "declaration" then some (OptValue.bool true)
    else if k = "emitDeclarationOnly" then some (OptValue.bool true)
    else if k = "moduleResolution" then some (OptValue.str "ModuleResolutionKind.NodeNext")
    else if k = "skipLibCheck" then some (OptValue.bool true)
    else if k = "noEmit" then some (OptValue.bool false)
    else none

/-- Embedding of the `options` literal of `buildDeclarationFiles`:
`{ ...defaults, ...(tsOptions ?? {}), incremental: false }` — the
defaults, overridden by the caller-supplied `tsOptions` when present
(`?? {}` substitutes the empty object for an absent argument), and then
the literal `incremental: false` entry, which comes after the spread
and therefore always wins. -/
def declarationOptions (tsOptions : Option OptMap) : OptMap :=
  setOption (spreadInto defaultDeclarationOptions (tsOptions.getD emptyOptMap))
    "incremental" (OptValue.bool false)

/-- The provider's diagnostic severity enumeration
(`ts.DiagnosticCategory`), in the provider's declaration order. -/
inductive DiagnosticCategory
  | Warning
  | Error
  | Suggestion
  | Message
  deriving DecidableEq, Repr

/-- A provider source file as the embedded code observes it: its
`fileName`, together with the provider facility
`ts.getLineAndCharacterOfPosition` specialised to this file — a map
from a character offset to the 0-based (line, character) pair. -/
structure SourceFile where
  fileName : String
  lineAndCharacterOfPosition : Nat → Nat × Nat

/-- A provider diagnostic as the embedded code observes it.
`messageText` is a string or a chain of message parts; it is kept as
the list of parts (a plain string being the one-part case), consumed
only through the provider's flattening facility.  `file` and `start`
are optional in the provider's interface; the source reads `start`
without checking it. -/
structure Diagnostic where
  category : DiagnosticCategory
  file : Option SourceFile
  start : Option Nat
  messageText : List String

/-- The provider facility `ts.flattenDiagnosticMessageText`: joins the
parts of a multi-part message with the given separator. -/
def flattenDiagnosticMessageText (parts : List String) (separator : String) : String :=
  String.intercalate separator parts

/-- Embedding of `formatDiagnostic`.

When the diagnostic carries a file, the source calls
`ts.getLineAndCharacterOfPosition(diagnostic.file, diagnostic.start)`
on the unchecked `start` and renders
`fileName (line+1,character+1): message`; the position lookup is only
defined for a present offset, so a file-carrying diagnostic with
`start = none` is outside the domain (`none`).  With no file, the
flattened message is returned alone. -/
def formatDiagnostic (d : Diagnostic) : Option String :=
  match d.file with
  | some f =>
      match d.start with
      | some s =>
          let lc := f.lineAndCharacterOfPosition s
          some (f.fileName ++ " (" ++ toString (lc.1 + 1) ++ "," ++ toString (lc.2 + 1) ++
            "): " ++ flattenDiagnosticMessageText d.messageText "\n")
      | none => none
  | none => some (flattenDiagnosticMessageText d.messageText "\n")

/-- One iteration of the `allDiagnostics.forEach` switch in
`buildDeclarationFiles`: route the formatted diagnostic to the logger
channel fixed by its category (`error`, `warn`, `info`, `info`).  The
event is undefined exactly where `formatDiagnostic` is. -/
def diagnosticEvent (d : Diagnostic) : Option Event :=
  match formatDiagnostic d with
  | none => none
  | some msg =>
      match d.category with
      | DiagnosticCategory.Error => some (Event.log Channel.error msg)
      | DiagnosticCategory.Warning => some (Event.log Channel.warn msg)
      | DiagnosticCategory.Message => some (Event.log Channel.info msg)
      | DiagnosticCategory.Suggestion => some (Event.log Channel.info msg)

/-- The `allDiagnostics.forEach` loop: the log events of the
diagnostics in order, undefined as soon as one diagnostic is. -/
def diagnosticEvents : List Diagnostic → Option (List Event)
  | [] => some []
  | d :: rest =>
      match diagnosticEvent d, diagnosticEvents rest with
      | some e, some es => some (e :: es)
      | _, _ => none

/-- Embedding of the diagnostic-and-outcome part of
`buildDeclarationFiles`.

The provider outputs are the inputs: `preEmitDiagnostics` is
`ts.getPreEmitDiagnostics(program)`, `emitDiagnostics` is
`emitResult.diagnostics` (concatenated in that order by the source),
and `emitSkipped` is `emitResult.emitSkipped`.  The trace is the
forEach log events followed by `process.exit(1)` exactly when
`emitSkipped` is set; otherwise the function returns normally after
logging. -/
def buildDeclarationFiles (preEmitDiagnostics emitDiagnostics : List Diagnostic)
    (emitSkipped : Bool) : Option (List Event) :=
  match diagnosticEvents (preEmitDiagnostics ++ emitDiagnostics) with
  | none => none
  | some logs => some (logs ++ if emitSkipped then [Event.exitProcess 1] else [])

/-- Outcome of the provider facility `ts.parseConfigFileTextToJson`:
the parsed config object together with an optional parse-error
diagnostic (`error` is `undefined` on success; a diagnostic object is
always truthy).  Only the `compilerOptions` field of the config is
consumed downstream. -/
structure ParseResult where
  compilerOptions : OptMap
  error : Option Diagnostic

/-- Outcome of the provider facility
`ts.convertCompilerOptionsFromJson`: per the provider's interface it is
the pair of the converted options record and the list of field-level
error diagnostics — the errors are a sibling of `options` in the
result, not a property of the options record. -/
structure ConvertResult where
  options : OptMap
  errors : List Diagnostic

/-- Embedding of `getTypeScriptCompilerOptions`.

`parseResult` and `convertResult` are what the provider's two
facilities report for this call (`convertResult` standing for
`ts.convertCompilerOptionsFromJson(tsconfig.compilerOptions, ...)`).
If `error` is set, the source logs on the error channel and exits with
status 1, returning nothing.  Otherwise the source destructures
`{ options: tsOptions }` from the conversion result and tests
`tsOptions.errors` — a property read ON THE OPTIONS RECORD — before
returning `tsOptions`. -/
def getTypeScriptCompilerOptions (parseResult : ParseResult) (convertResult : ConvertResult) :
    List Event × Option OptMap :=
  match parseResult.error with
  | some _ =>
      ([Event.log Channel.error "Error parsing tsconfig.json:", Event.exitProcess 1], none)
  | none =>
      let tsOptions := convertResult.options
      if truthy (tsOptions "errors") then
        ([Event.log Channel.error "Error parsing compiler options from tsconfig.json",
          Event.exitProcess 1], none)
      else
        ([], some tsOptions)

/-- A concrete file-less diagnostic with a one-part message, used for
concrete evaluations of the embedded functions. -/
def sampleDiagnostic (cat : DiagnosticCategory) (msg : String) : Diagnostic :=
  { category := cat, file := none, start := none, messageText := [msg] }

/-- The source file of the formatting example: named a.ts, with the provider
position lookup placing the start offset at 0-based line 4, character 9. -/
def exampleSourceFile : SourceFile :=
  { fileName := "a.ts", lineAndCharacterOfPosition := fun _ => (4, 9) }

/-- The formatting example diagnostic: located in a.ts, 0-based line 4 and
character 9, message "Unexpected token". -/
def exampleLocatedDiagnostic : Diagnostic :=
  { category := DiagnosticCategory.Error,
    file := some exampleSourceFile,
    start := some 17,
    messageText := ["Unexpected token"] }

/-- A parse outcome with a syntax error in the config file text. -/
def sampleParseErrorResult : ParseResult :=
  { compilerOptions := emptyOptMap,
    error := some (sampleDiagnostic DiagnosticCategory.Error "Unexpected token in JSON") }

/-- A successful parse outcome. -/
def parseOkResult : ParseResult :=
  { compilerOptions := emptyOptMap, error := none }

/-- A conversion outcome with no field-level errors. -/
def cleanConvertResult : ConvertResult :=
  { options := emptyOptMap, errors := [] }

/-- A conversion outcome in which the provider facility reports a field-level
error: per its interface, the report sits in the errors list of the result,
while the converted options record holds only converted compiler options —
it has no property named errors. -/
def convertResultWithFieldErrors : ConvertResult :=
  { options := fun k => if k = "target" then some (OptValue.str "ScriptTarget.ES2020") else none,
    errors := [sampleDiagnostic DiagnosticCategory.Error
      "Compiler option target requires a value of type string"] }

/-- Claim C4: for every overrideOptions argument — including one that sets
incremental to true, and including the absent argument — the effective option
set that buildDeclarationFiles hands to the provider has incremental = false. -/
theorem c4_incremental_always_false (overrideOptions : Option OptMap) :
    declarationOptions overrideOptions "incremental" = some (OptValue.bool false) := by
  simp [declarationOptions, setOption]

/-- Claim C5: isTypescriptProject returns is-type-checked = true iff the config
file is present and both provider handles are set; the missing list names
exactly the absent prerequisites in the fixed order config file, compiler,
transformer; and an absent config file forces a false result that names the
config file, regardless of provider availability. -/
theorem c5_classification (tsconfigExists : Bool) (h : Handles) :
    ((isTypescriptProject tsconfigExists h).1 = true ↔
      tsconfigExists = true ∧ h.ts.isSome = true ∧ h.transform.isSome = true) ∧
    (isTypescriptProject tsconfigExists h).2 =
      ([("tsconfig.json", tsconfigExists), ("typescript", h.ts.isSome),
          ("@swc/core", h.transform.isSome)].filterMap
        (fun p => if p.2 then none else some p.1)) ∧
    (tsconfigExists = false →
      (isTypescriptProject tsconfigExists h).1 = false ∧
      "tsconfig.json" ∈ (isTypescriptProject tsconfigExists h).2) := by
  obtain ⟨hts, htr⟩ := h
  cases tsconfigExists <;> cases hts <;> cases htr <;>
    simp [isTypescriptProject]

/-- Witness for C5 at a concrete input: config file absent while both
providers are available still classifies as not type-checked and reports the
config file. -/
theorem c5_classification_witness :
    (isTypescriptProject false { ts := some TsModule.mk, transform := some SwcModule.mk }).1
        = false ∧
    "tsconfig.json" ∈
      (isTypescriptProject false { ts := some TsModule.mk, transform := some SwcModule.mk }).2 :=
  (c5_classification false { ts := some TsModule.mk, transform := some SwcModule.mk }).2.2 rfl

/-- Claim C2 counterexample: with the compiler import succeeding and the
transformer import failing, preloadTransformers returns with the compiler
handle still unset — the successful acquisition is discarded, refuting the
claimed independence of the two acquisitions. -/
theorem c2_joint_failure_counterexample :
    preloadTransformers false (Except.ok TsModule.mk)
        (Except.error "Cannot find module @swc/core") initialHandles =
      Except.ok { ts := none, transform := none } ∧
    ¬ preloadTransformers false (Except.ok TsModule.mk)
        (Except.error "Cannot find module @swc/core") initialHandles =
      Except.ok { ts := some TsModule.mk, transform := none } := by
  constructor
  · rfl
  · intro hcontra
    have : ({ ts := none, transform := none } : Handles) =
        { ts := some TsModule.mk, transform := none } := by
      have h1 : preloadTransformers false (Except.ok TsModule.mk)
          (Except.error "Cannot find module @swc/core") initialHandles =
        Except.ok { ts := none, transform := none } := rfl
      exact Except.ok.inj (h1.symm.trans hcontra)
    simp at this

/-- Claim C2 as amended: the two acquisitions are issued together but their
results are awaited jointly — when both succeed, both handles are set; when
either acquisition fails, the failure is swallowed and neither handle is
assigned, the prior state being returned unchanged. -/
theorem c2_amended_joined_acquisition (tsImport : Except String TsModule)
    (swcImport : Except String SwcModule) (st : Handles) :
    (∀ t s, tsImport = Except.ok t → swcImport = Except.ok s →
      preloadTransformers false tsImport swcImport st =
        Except.ok { ts := some t, transform := some s }) ∧
    (((∃ e, tsImport = Except.error e) ∨ (∃ e, swcImport = Except.error e)) →
      preloadTransformers false tsImport swcImport st = Except.ok st) := by
  constructor
  · intro t s ht hs
    subst ht; subst hs
    rfl
  · intro hfail
    rcases hfail with ⟨e, he⟩ | ⟨e, he⟩
    · subst he; rfl
    · subst he; cases tsImport <;> rfl

/-- Witness for the amended C2 at concrete inputs: both imports succeeding
sets both handles; a failing compiler import leaves the state unchanged. -/
theorem c2_amended_joined_acquisition_witness :
    preloadTransformers false (Except.ok TsModule.mk) (Except.ok SwcModule.mk) initialHandles =
      Except.ok { ts := some TsModule.mk, transform := some SwcModule.mk } ∧
    preloadTransformers false (Except.error "Cannot find module typescript")
        (Except.ok SwcModule.mk) initialHandles = Except.ok initialHandles :=
  ⟨(c2_amended_joined_acquisition (Except.ok TsModule.mk) (Except.ok SwcModule.mk)
      initialHandles).1 TsModule.mk SwcModule.mk rfl rfl,
   (c2_amended_joined_acquisition (Except.error "Cannot find module typescript")
      (Except.ok SwcModule.mk) initialHandles).2
      (Or.inl ⟨"Cannot find module typescript", rfl⟩)⟩

/-- Claim C3: preloadTransformers never lets an exception escape — every
outcome yields an ok result; a failed acquisition leaves the corresponding
handle unset; and under the restricted host runtime both handles remain unset
with no error raised. -/
theorem c3_preload_swallows_failures (isBunRuntime : Bool)
    (tsImport : Except String TsModule) (swcImport : Except String SwcModule) :
    (∃ h, preloadTransformers isBunRuntime tsImport swcImport initialHandles = Except.ok h) ∧
    (∀ e, tsImport = Except.error e →
      ∃ h, preloadTransformers isBunRuntime tsImport swcImport initialHandles = Except.ok h ∧
        h.ts = none) ∧
    (∀ e, swcImport = Except.error e →
      ∃ h, preloadTransformers isBunRuntime tsImport swcImport initialHandles = Except.ok h ∧
        h.transform = none) ∧
    (isBunRuntime = true →
      preloadTransformers isBunRuntime tsImport swcImport initialHandles =
        Except.ok initialHandles) := by
  refine ⟨?_, ?_, ?_, ?_⟩
  · cases isBunRuntime <;> cases tsImport <;> cases swcImport <;> exact ⟨_, rfl⟩
  · intro e he
    subst he
    cases isBunRuntime
    · exact ⟨initialHandles, rfl, rfl⟩
    · exact ⟨initialHandles, rfl, rfl⟩
  · intro e he
    subst he
    cases isBunRuntime
    · cases tsImport <;> exact ⟨initialHandles, rfl, rfl⟩
    · exact ⟨initialHandles, rfl, rfl⟩
  · intro hb
    subst hb
    rfl

/-- Witness for C3 at concrete inputs: both acquisitions failing under the
restricted runtime yields an ok result with both handles unset. -/
theorem c3_preload_swallows_failures_witness :
    (∃ h, preloadTransformers true (Except.error "missing typescript")
        (Except.error "missing swc") initialHandles = Except.ok h ∧ h.ts = none) ∧
    (∃ h, preloadTransformers true (Except.error "missing typescript")
        (Except.error "missing swc") initialHandles = Except.ok h ∧ h.transform = none) ∧
    preloadTransformers true (Except.error "missing typescript")
        (Except.error "missing swc") initialHandles = Except.ok initialHandles := by
  have h := c3_preload_swallows_failures true (Except.error "missing typescript")
    (Except.error "missing swc")
  exact ⟨h.2.1 "missing typescript" rfl, h.2.2.1 "missing swc" rfl, h.2.2.2 rfl⟩

/-- Every event the forEach switch produces is a logger call. -/
theorem diagnosticEvent_isLog (d : Diagnostic) (e : Event)
    (h : diagnosticEvent d = some e) : isLogEvent e = true := by
  obtain ⟨cat, file, startOffset, parts⟩ := d
  unfold diagnosticEvent at h
  cases hf : formatDiagnostic ⟨cat, file, startOffset, parts⟩ with
  | none => rw [hf] at h; cases h
  | some msg =>
      rw [hf] at h
      cases cat <;> cases h <;> rfl

/-- The event the forEach switch produces carries the formatted message of
its diagnostic on some channel. -/
theorem diagnosticEvent_shape (d : Diagnostic) (e : Event)
    (h : diagnosticEvent d = some e) :
    ∃ msg c, formatDiagnostic d = some msg ∧ e = Event.log c msg := by
  obtain ⟨cat, file, startOffset, parts⟩ := d
  unfold diagnosticEvent at h
  cases hf : formatDiagnostic ⟨cat, file, startOffset, parts⟩ with
  | none => rw [hf] at h; cases h
  | some msg =>
      rw [hf] at h
      cases cat <;> cases h <;> exact ⟨msg, _, rfl, rfl⟩

/-- Soundness of the forEach loop: when it is defined, every event is a log
event and every diagnostic of the list contributed an event. -/
theorem diagnosticEvents_sound (l : List Diagnostic) (es : List Event)
    (h : diagnosticEvents l = some es) :
    (∀ e ∈ es, isLogEvent e = true) ∧
    (∀ d ∈ l, ∃ e, diagnosticEvent d = some e ∧ e ∈ es) := by
  induction l generalizing es with
  | nil =>
      unfold diagnosticEvents at h
      cases h
      simp
  | cons d rest ih =>
      unfold diagnosticEvents at h
      cases h1 : diagnosticEvent d with
      | none => rw [h1] at h; cases h
      | some e =>
          rw [h1] at h
          cases h2 : diagnosticEvents rest with
          | none => rw [h2] at h; cases h
          | some es2 =>
              rw [h2] at h
              cases h
              obtain ⟨ihLog, ihMem⟩ := ih es2 h2
              constructor
              · intro x hx
                rcases List.mem_cons.mp hx with hx | hx
                · subst hx; exact diagnosticEvent_isLog d x h1
                · exact ihLog x hx
              · intro x hx
                rcases List.mem_cons.mp hx with hx | hx
                · subst hx; exact ⟨e, h1, List.mem_cons_self _ _⟩
                · obtain ⟨ev, hev, hmem⟩ := ihMem x hx
                  exact ⟨ev, hev, List.mem_cons_of_mem _ hmem⟩

/-- Claim C6: when the run is defined, an emitSkipped report makes the trace
end in exactly one process-exit event with non-zero status 1, placed after the
log events of all collected diagnostics; without emitSkipped there is no exit
event at all, whatever warnings or informational diagnostics were logged. -/
theorem c6_exit_after_logging (preEmitDiagnostics emitDiagnostics : List Diagnostic)
    (emitSkipped : Bool) (tr : List Event)
    (h : buildDeclarationFiles preEmitDiagnostics emitDiagnostics emitSkipped = some tr) :
    (emitSkipped = true →
      ∃ logs, tr = logs ++ [Event.exitProcess 1] ∧
        tr.filter isExitEvent = [Event.exitProcess 1] ∧
        (∀ e ∈ logs, isLogEvent e = true) ∧
        (∀ d ∈ preEmitDiagnostics ++ emitDiagnostics, ∃ msg,
          formatDiagnostic d = some msg ∧ ∃ c, Event.log c msg ∈ logs)) ∧
    (emitSkipped = false → tr.filter isExitEvent = []) := by
  unfold buildDeclarationFiles at h
  cases hev : diagnosticEvents (preEmitDiagnostics ++ emitDiagnostics) with
  | none => rw [hev] at h; cases h
  | some logs =>
      rw [hev] at h
      cases h
      obtain ⟨hLog, hMem⟩ := diagnosticEvents_sound _ _ hev
      have hFilterLogs : logs.filter isExitEvent = [] := by
        rw [List.filter_eq_nil_iff]
        intro a ha
        have := hLog a ha
        cases a with
        | log c m => simp [isExitEvent]
        | exitProcess code => simp [isLogEvent] at this
      constructor
      · intro hs
        subst hs
        refine ⟨logs, rfl, ?_, hLog, ?_⟩
        · rw [List.filter_append, hFilterLogs]
          rfl
        · intro d hd
          obtain ⟨e, he, hmem⟩ := hMem d hd
          obtain ⟨msg, c, hfmt, hshape⟩ := diagnosticEvent_shape d e he
          subst hshape
          exact ⟨msg, hfmt, c, hmem⟩
      · intro hs
        subst hs
        simp [List.filter_append, hFilterLogs]

/-- Witness for C6 at a concrete input: one error diagnostic with emission
skipped yields the error log followed by the single exit event. -/
theorem c6_exit_after_logging_witness :
    ∃ logs,
      ([Event.log Channel.error "boom", Event.exitProcess 1] : List Event) =
          logs ++ [Event.exitProcess 1] ∧
        ([Event.log Channel.error "boom", Event.exitProcess 1] : List Event).filter isExitEvent =
          [Event.exitProcess 1] ∧
        (∀ e ∈ logs, isLogEvent e = true) ∧
        (∀ d ∈ [sampleDiagnostic DiagnosticCategory.Error "boom"] ++ [], ∃ msg,
          formatDiagnostic d = some msg ∧ ∃ c, Event.log c msg ∈ logs) :=
  (c6_exit_after_logging [sampleDiagnostic DiagnosticCategory.Error "boom"] [] true
    [Event.log Channel.error "boom", Event.exitProcess 1] rfl).1 rfl

/-- Claim C7: the severity-to-channel routing of the forEach switch is fixed
and exhaustive over the four provider categories — Error to the error channel,
Warning to the warning channel, Message and Suggestion to the informational
channel. -/
theorem c7_category_routing (d : Diagnostic) (msg : String)
    (h : formatDiagnostic d = some msg) :
    (d.category = DiagnosticCategory.Error →
      diagnosticEvent d = some (Event.log Channel.error msg)) ∧
    (d.category = DiagnosticCategory.Warning →
      diagnosticEvent d = some (Event.log Channel.warn msg)) ∧
    (d.category = DiagnosticCategory.Message →
      diagnosticEvent d = some (Event.log Channel.info msg)) ∧
    (d.category = DiagnosticCategory.Suggestion →
      diagnosticEvent d = some (Event.log Channel.info msg)) := by
  unfold diagnosticEvent
  rw [h]
  refine ⟨fun hc => ?_, fun hc => ?_, fun hc => ?_, fun hc => ?_⟩ <;> rw [hc]

/-- Witness for C7 at a concrete input: an Error-category diagnostic is routed
to the error channel with its formatted message. -/
theorem c7_category_routing_witness :
    diagnosticEvent (sampleDiagnostic DiagnosticCategory.Error "Unexpected token") =
      some (Event.log Channel.error "Unexpected token") :=
  (c7_category_routing (sampleDiagnostic DiagnosticCategory.Error "Unexpected token")
    "Unexpected token" rfl).1 rfl

/-- Claim C8: a diagnostic carrying a source location renders as
fileName (line+1,column+1): flattened-message, the 1-based coordinates being
the 0-based provider position plus one and flattening joining message parts
with newlines; a diagnostic with no file renders as the flattened message
alone; and the example a.ts diagnostic at 0-based line 4, character 9 with
message Unexpected token renders as a.ts (5,10): Unexpected token. -/
theorem c8_diagnostic_formatting :
    (∀ (cat : DiagnosticCategory) (f : SourceFile) (startOffset : Nat) (parts : List String),
      formatDiagnostic { category := cat,
                         file := some f,
                         start := some startOffset,
                         messageText := parts } =
        some (f.fileName ++ " (" ++ toString ((f.lineAndCharacterOfPosition startOffset).1 + 1) ++
          "," ++ toString ((f.lineAndCharacterOfPosition startOffset).2 + 1) ++ "): " ++
          String.intercalate "\n" parts)) ∧
    (∀ (cat : DiagnosticCategory) (startOffset : Option Nat) (parts : List String),
      formatDiagnostic { category := cat,
                         file := none,
                         start := startOffset,
                         messageText := parts } =
        some (String.intercalate "\n" parts)) ∧
    formatDiagnostic exampleLocatedDiagnostic = some "a.ts (5,10): Unexpected token" := by
  refine ⟨fun cat f startOffset parts => rfl, fun cat startOffset parts => rfl, ?_⟩
  rfl

/-- Claim C10: formatDiagnostic is total except on a file-carrying diagnostic
whose start offset is undefined — the file branch performs the position lookup
on the unchecked start, so exactly those diagnostics fall outside the domain,
while diagnostics with no file never reach the lookup and are always
rendered. -/
theorem c10_format_domain (d : Diagnostic) :
    formatDiagnostic d = none ↔ d.file.isSome = true ∧ d.start = none := by
  obtain ⟨cat, file, startOffset, parts⟩ := d
  cases file <;> cases startOffset <;> simp [formatDiagnostic]

/-- Claim C9: a parse error reported by the provider for the config file is
fatal — the error is logged on the error channel and the process exits with
status 1, and no option set is returned. -/
theorem c9_parse_error_fatal (parseResult : ParseResult) (convertResult : ConvertResult)
    (d : Diagnostic) (h : parseResult.error = some d) :
    getTypeScriptCompilerOptions parseResult convertResult =
      ([Event.log Channel.error "Error parsing tsconfig.json:", Event.exitProcess 1], none) := by
  unfold getTypeScriptCompilerOptions
  rw [h]

/-- Witness for C9 at a concrete input: a config file with a JSON syntax
error is logged and the process exits without returning options. -/
theorem c9_parse_error_fatal_witness :
    getTypeScriptCompilerOptions sampleParseErrorResult cleanConvertResult =
      ([Event.log Channel.error "Error parsing tsconfig.json:", Event.exitProcess 1], none) :=
  c9_parse_error_fatal sampleParseErrorResult cleanConvertResult
    (sampleDiagnostic DiagnosticCategory.Error "Unexpected token in JSON") rfl

/-- Claim C1: refuted by the code. With a successfully parsed config and a
conversion outcome that reports a field-level error, the function logs
nothing, raises no exit event, and returns the converted option set: the
source tests the errors property of the destructured options record, a
property the conversion facility never sets — its error report is the sibling
errors field of the result — so the fatal branch is unreachable. -/
theorem c1_conversion_errors_not_fatal :
    getTypeScriptCompilerOptions parseOkResult convertResultWithFieldErrors =
      ([], some convertResultWithFieldErrors.options) ∧
    convertResultWithFieldErrors.errors ≠ [] := by
  constructor
  · rfl
  · simp [convertResultWithFieldErrors]
